import Mathlib

/-!
Shallow embedding of the FLH Desk BLE coordinator
(`custom_components/flh_desk/coordinator.py` and `const.py`).

Bytes are modelled as `Nat` (Python `bytes` elements are 0..255; Python
ints are unbounded, and every `& 0xFF`-style mask of the source appears
explicitly below).  Asynchronous methods are modelled as pure functions:
fallible ones return `Except` (a raised exception leaves the coordinator
fields exactly as they were at the raise point), and the outcome of each
transport interaction (establish / write / close) is passed in as an
explicit boolean parameter.
-/

/- ===== constants (const.py) ===== -/

def DEFAULT_MIN_HEIGHT : Nat := 72
def DEFAULT_MAX_HEIGHT : Nat := 122
def DEFAULT_SENSITIVITY : Int := 0

def CMD_UP : List Nat := [65, 32, 0, 0]
def CMD_DOWN : List Nat := [66, 32, 0, 0]
def CMD_STOP : List Nat := [64, 32, 0, 0]
def CMD_INIT : List Nat := [221, 1, 0, 0, 0, 0, 0, 0]
def CMD_AUTO_MOVE_BASE : List Nat := [64, 40]
def CMD_AUTO_STOP : List Nat := [195, 0, 0, 0]

/-- Source name `COMMON_PREFIX`: the fixed two leading bytes `{0xDD, 0x00}`
of every outbound command frame. -/
def commonHeader : List Nat := [0xDD, 0x00]

/- ===== command codec (module-level functions of coordinator.py) ===== -/

/-- `calculate_checksum(data) = sum(data) & 0x7F`. -/
def calculate_checksum (data : List Nat) : Nat := data.sum &&& 0x7F

/-- `build_command(command_bytes, has_max_limit, has_min_limit)`:
adjust the first body byte by the limit flags (wrapping with `& 0xFF`),
append the checksum of the adjusted body, and prepend the header. -/
def build_command (command_bytes : List Nat)
    (has_max_limit has_min_limit : Bool) : List Nat :=
  let modified_bytes :=
    match command_bytes with
    | [] => []
    | b0 :: rest =>
      (if has_max_limit && has_min_limit then (b0 + 0x30) &&& 0xFF
       else if has_max_limit then (b0 + 0x10) &&& 0xFF
       else if has_min_limit then (b0 + 0x20) &&& 0xFF
       else b0) :: rest
  commonHeader ++ modified_bytes ++ [calculate_checksum modified_bytes]

/- ===== coordinator state ===== -/

/-- The transport handle (`BleakClient`): for this development only its
`is_connected` report matters. -/
structure Client where
  is_connected : Bool
deriving Repr, DecidableEq

/-- The mutable fields of `FLHDeskCoordinator` (set in `__init__`). -/
structure CoordState where
  client : Option Client
  is_connected : Bool
  should_reconnect : Bool
  reconnect_task_active : Bool
  current_height_mm : Nat
  min_height_mm : Nat
  max_height_mm : Nat
  is_moving : Bool
  sensitivity : Int
deriving Repr, DecidableEq

/-- The state right after `__init__`. -/
def initState : CoordState :=
  { client := none,
    is_connected := false,
    should_reconnect := true,
    reconnect_task_active := false,
    current_height_mm := 0,
    min_height_mm := DEFAULT_MIN_HEIGHT * 10,
    max_height_mm := DEFAULT_MAX_HEIGHT * 10,
    is_moving := false,
    sensitivity := DEFAULT_SENSITIVITY }

/-- Property `current_height_cm = current_height_mm / 10.0` (exact rational
model of the decimal division). -/
def current_height_cm (s : CoordState) : ℚ := (s.current_height_mm : ℚ) / 10

/-- Whether `self.client` exists and reports connected
(the guard `self.client and self.client.is_connected`). -/
def client_connected (s : CoordState) : Bool :=
  match s.client with
  | some c => c.is_connected
  | none => false

/- ===== notification decoding (`_notification_handler`) ===== -/

/-- `_notification_handler(self, _characteristic, data)`: returns the
updated coordinator state, paired with `true` exactly when the handler
reached `_trigger_callbacks` / `async_set_updated_data` (i.e. observers
were notified).  Early returns (empty data, short data, wrong first byte)
leave the state untouched and notify nobody. -/
def notification_handler (s : CoordState) (data : List Nat) :
    CoordState × Bool :=
  if data.length = 0 then (s, false)
  else if data.length < 11 ∨ data.getD 0 0 ≠ 0x9D then (s, false)
  else
    -- cmd_type = data[1]
    if data.getD 1 0 = 0x00 then
      -- init response: min/max limits from bytes 6-9,
      -- min from (min_b1, min_b2) = (data[6], data[7]),
      -- max from (max_b1, max_b2) = (data[8], data[9])
      ({ s with
          min_height_mm := (data.getD 7 0 &&& 0xFF) ||| ((data.getD 6 0 &&& 0x0F) <<< 8),
          max_height_mm := (data.getD 9 0 &&& 0xFF) ||| ((data.getD 8 0 &&& 0x0F) <<< 8) },
       true)
    else if data.getD 1 0 = 0x01 then
      -- height update: current height from (b1, b2) = (data[6], data[7])
      ({ s with
          current_height_mm := (data.getD 7 0 &&& 0xFF) ||| ((data.getD 6 0 &&& 0x0F) <<< 8) },
       true)
    else
      (s, true)

/- ===== command sending ===== -/

/-- `_send_command(self, command)`: raises `UpdateFailed("Not connected to
desk")` when there is no connected client handle; otherwise attempts the
GATT write, whose outcome is the environment parameter `writeOk` (a failed
write raises `UpdateFailed`).  The coordinator fields are never modified;
on success the written frame is returned alongside the unchanged state. -/
def send_command (writeOk : Bool) (s : CoordState) (command : List Nat) :
    Except String (CoordState × List Nat) :=
  if client_connected s then
    if writeOk then .ok (s, command)
    else .error "Failed to send command"
  else .error "Not connected to desk"

/-- `async_move_up`: UP body plus sensitivity byte, no limit flags. -/
def async_move_up (writeOk : Bool) (s : CoordState) :
    Except String (CoordState × List Nat) :=
  send_command writeOk s
    (build_command (CMD_UP ++ [s.sensitivity.toNat]) false false)

/-- `async_move_down`: DOWN body plus sensitivity byte, no limit flags. -/
def async_move_down (writeOk : Bool) (s : CoordState) :
    Except String (CoordState × List Nat) :=
  send_command writeOk s
    (build_command (CMD_DOWN ++ [s.sensitivity.toNat]) false false)

/-- `async_stop`: STOP body plus sensitivity byte, no limit flags. -/
def async_stop (writeOk : Bool) (s : CoordState) :
    Except String (CoordState × List Nat) :=
  send_command writeOk s
    (build_command (CMD_STOP ++ [s.sensitivity.toNat]) false false)

/-- `async_stop_auto_move`: AUTO_STOP body, no limit flags. -/
def async_stop_auto_move (writeOk : Bool) (s : CoordState) :
    Except String (CoordState × List Nat) :=
  send_command writeOk s (build_command CMD_AUTO_STOP false false)

/-- Python `int(q)`: truncation toward zero, exact on rationals. -/
def pyInt (q : ℚ) : Int := q.num.tdiv q.den

/-- The `height_mm` local of `async_move_to_height`:
`height_mm = int(height_cm * 10)` followed by
`height_mm = max(self._min_height_mm, min(height_mm, self._max_height_mm))`. -/
def clampedHeight (s : CoordState) (height_cm : ℚ) : Int :=
  max (s.min_height_mm : Int) (min (pyInt (height_cm * 10)) (s.max_height_mm : Int))

/-- `async_move_to_height(self, height_cm)`: convert to millimetres,
clamp to `[min_height_mm, max_height_mm]`, encode big-endian over two
body bytes (`height_high = (height_mm >> 8) & 0xFF`,
`height_low = height_mm & 0xFF`), build the auto-move frame, send it.
The clamped value is at least `min_height_mm ≥ 0`, so `Int.toNat` is
exact where used. -/
def async_move_to_height (writeOk : Bool) (s : CoordState)
    (height_cm : ℚ) : Except String (CoordState × List Nat) :=
  send_command writeOk s
    (build_command
      (CMD_AUTO_MOVE_BASE ++
        [((clampedHeight s height_cm).toNat >>> 8) &&& 0xFF,
         (clampedHeight s height_cm).toNat &&& 0xFF,
         s.sensitivity.toNat])
      false false)

/-- `set_sensitivity(self, sensitivity)`: store the value clamped by
`max(0, min(8, sensitivity))`. -/
def set_sensitivity (s : CoordState) (sensitivity : Int) : CoordState :=
  { s with sensitivity := max 0 (min 8 sensitivity) }

/- ===== connection management ===== -/

/-- `async_connect`: `establish_connection` and `start_notify` are two
separate awaits.  When establishment fails, the method raises with every
field untouched.  When establishment succeeds, `self.client` is replaced
by a connected handle at once; if `start_notify` then raises, the method
raises with that connected handle stored and `_is_connected` still at
its previous value (the `self._is_connected = True` line has not run
yet).  When both succeed, `_is_connected` is set; the handshake writes
that follow modify no coordinator field, so their outcome does not
change the resulting state.  A raise returns the fields as they were at
the raise point inside `Except.error`. -/
def async_connect (establishOk notifyOk : Bool) (s : CoordState) :
    Except CoordState CoordState :=
  if establishOk then
    if notifyOk then
      .ok { s with
            client := some { is_connected := true },
            is_connected := true }
    else
      .error { s with client := some { is_connected := true } }
  else .error s

/-- `async_disconnect`: under the disconnect lock, close the client if it
exists and reports connected, then set `_is_connected = False`.  `closeOk`
is the transport close outcome: when `await self.client.disconnect()`
raises, the exception propagates before the flag assignment runs, so the
state is returned unchanged inside `.error`. -/
def async_disconnect (closeOk : Bool) (s : CoordState) :
    Except Unit CoordState :=
  match s.client with
  | some c =>
    if c.is_connected then
      if closeOk then
        .ok { s with
              client := some { c with is_connected := false },
              is_connected := false }
      else .error ()
    else .ok { s with is_connected := false }
  | none => .ok { s with is_connected := false }

/-- The guard of `_on_disconnect` that spawns a reconnection task:
`if self._should_reconnect and self._reconnect_task is None`. -/
def starts_reconnect_cycle (s : CoordState) : Bool :=
  s.should_reconnect && !s.reconnect_task_active

/-- `_on_disconnect`: invoked by the transport once the link has dropped
(so the client handle reports not connected); clears `_is_connected`,
and spawns a reconnection task only when none is active (the guard reads
`_should_reconnect` and `_reconnect_task`, which the preceding
assignments do not touch). -/
def on_disconnect (s : CoordState) : CoordState :=
  if starts_reconnect_cycle s then
    { s with
      client := s.client.map (fun c => { c with is_connected := false }),
      is_connected := false,
      reconnect_task_active := true }
  else
    { s with
      client := s.client.map (fun c => { c with is_connected := false }),
      is_connected := false }

/- ===== reconnection loop (`_async_reconnect`) ===== -/

/-- Observable events of one reconnection cycle: the fixed sleep before
each try, and the numbered connect attempt. -/
inductive REvent where
  | delay (secs : Nat)
  | attempt (n : Nat)
deriving Repr, DecidableEq

/-- `self._max_reconnect_attempts = 10`. -/
def max_reconnect_attempts : Nat := 10

/-- `self._reconnect_delay = 5  # seconds`. -/
def reconnect_delay : Nat := 5

/-- The `while` loop of `_async_reconnect`, for a cycle during which
`_should_reconnect` stays true: `attempt` is the counter value, `fuel`
the remaining iterations allowed by `attempt < self._max_reconnect_attempts`,
and `outcomes n` tells whether the n-th `async_connect` call succeeds.
Each iteration sleeps `_reconnect_delay` seconds and then tries once;
a successful attempt returns from the method, ending the trace. -/
def reconnectLoop (outcomes : Nat → Bool) (d : Nat) (attempt : Nat) :
    Nat → List REvent
  | 0 => []
  | fuel + 1 =>
    REvent.delay d :: REvent.attempt (attempt + 1) ::
      (if outcomes (attempt + 1) then []
       else reconnectLoop outcomes d (attempt + 1) fuel)

/-- `_async_reconnect` starts every cycle with a fresh counter
(`attempt = 0`) and the configured bound and delay. -/
def async_reconnect_trace (outcomes : Nat → Bool) : List REvent :=
  reconnectLoop outcomes reconnect_delay 0 max_reconnect_attempts

/-- Number of connect attempts appearing in a cycle trace. -/
def countAttempts (tr : List REvent) : Nat :=
  tr.countP (fun e => match e with | .attempt _ => true | _ => false)

/- ===== the operations of the system, for reachability invariants ===== -/

/-- One externally triggerable operation of the coordinator, carrying the
outcome of each transport interaction it performs. -/
inductive Op where
  | connect (establishOk notifyOk : Bool)
  | disconnect (closeOk : Bool)
  | link_lost
  | notify (data : List Nat)
  | move_up (writeOk : Bool)
  | move_down (writeOk : Bool)
  | stop (writeOk : Bool)
  | move_to_height (writeOk : Bool) (cm : ℚ)
  | stop_auto_move (writeOk : Bool)
  | set_sensitivity (v : Int)
  | shutdown (closeOk : Bool)

/-- Effect of one operation on the coordinator fields.  A raised
exception (`Except.error`) leaves the fields as they were at the raise
point.  Sending commands never mutates the fields.  `shutdown` disables
reconnection, cancels any reconnection task, then disconnects. -/
def applyOp (s : CoordState) (op : Op) : CoordState :=
  match op with
  | .connect establishOk notifyOk =>
    match async_connect establishOk notifyOk s with
    | .ok s1 => s1
    | .error s1 => s1
  | .disconnect ok =>
    match async_disconnect ok s with | .ok s1 => s1 | .error _ => s
  | .link_lost => on_disconnect s
  | .notify data => (notification_handler s data).1
  | .move_up _ => s
  | .move_down _ => s
  | .stop _ => s
  | .move_to_height _ _ => s
  | .stop_auto_move _ => s
  | .set_sensitivity v => set_sensitivity s v
  | .shutdown ok =>
    let s1 := { s with
                should_reconnect := false,
                reconnect_task_active := false }
    match async_disconnect ok s1 with | .ok s2 => s2 | .error _ => s1

/-- A state reachable by a finite sequence of operations from `__init__`. -/
def runOps (ops : List Op) : CoordState := ops.foldl applyOp initState

/- ===== general helper lemmas ===== -/

lemma and_255_eq_mod (n : Nat) : n &&& 0xFF = n % 256 := by
  have h := Nat.and_pow_two_sub_one_eq_mod n 8
  norm_num at h
  exact h

lemma shift_and_255_eq_div (n : Nat) (h : n < 65536) :
    (n >>> 8) &&& 0xFF = n / 256 := by
  rw [Nat.shiftRight_eq_div_pow]
  have h2 : n / 2 ^ 8 < 256 := Nat.div_lt_of_lt_mul (by omega)
  have h3 := Nat.and_pow_two_sub_one_eq_mod (n / 2 ^ 8) 8
  norm_num at h3 ⊢
  omega

/-- Any 12-bit reassembly `(b2 & 0xFF) | ((b1 & 0x0F) << 8)` computed by the
notification handler is at most 4095. -/
lemma twelve_bit_le (b1 b2 : Nat) :
    (b2 &&& 0xFF) ||| ((b1 &&& 0x0F) <<< 8) ≤ 4095 := by
  have h1 : b2 &&& 0xFF < 2 ^ 12 :=
    lt_of_le_of_lt Nat.and_le_right (by norm_num)
  have h2 : (b1 &&& 0x0F) <<< 8 < 2 ^ 12 := by
    rw [Nat.shiftLeft_eq]
    have hb : b1 &&& 0x0F ≤ 15 := Nat.and_le_right
    calc (b1 &&& 0x0F) * 2 ^ 8 ≤ 15 * 2 ^ 8 := Nat.mul_le_mul_right _ hb
      _ < 2 ^ 12 := by norm_num
  have := Nat.or_lt_two_pow h1 h2
  omega

/-- The notification handler touches only the three height fields: client
handle, connection flag, reconnection bookkeeping, motion flag and
sensitivity all pass through unchanged. -/
lemma notification_handler_untouched_fields (s : CoordState) (data : List Nat) :
    (notification_handler s data).1.client = s.client ∧
    (notification_handler s data).1.is_connected = s.is_connected ∧
    (notification_handler s data).1.should_reconnect = s.should_reconnect ∧
    (notification_handler s data).1.reconnect_task_active = s.reconnect_task_active ∧
    (notification_handler s data).1.is_moving = s.is_moving ∧
    (notification_handler s data).1.sensitivity = s.sensitivity := by
  unfold notification_handler
  split
  · exact ⟨rfl, rfl, rfl, rfl, rfl, rfl⟩
  split
  · exact ⟨rfl, rfl, rfl, rfl, rfl, rfl⟩
  split
  · exact ⟨rfl, rfl, rfl, rfl, rfl, rfl⟩
  split
  · exact ⟨rfl, rfl, rfl, rfl, rfl, rfl⟩
  · exact ⟨rfl, rfl, rfl, rfl, rfl, rfl⟩

/- ===== C1: command builder ===== -/

/-- C1 (counterexample): the claim's particular output
`build_command([0x40,0x28,0x01,0x2C,0x00], true, true) =
[0xDD,0x00,0x70,0x28,0x01,0x2C,0x00,0x41]` is false on the code: the
adjusted body sums to `0x70+0x28+0x01+0x2C = 0xC5`, so the checksum byte
is `0xC5 & 0x7F = 0x45`, not `0x41`. -/
theorem build_command_example_checksum_false :
    build_command [0x40, 0x28, 0x01, 0x2C, 0x00] true true
      ≠ [0xDD, 0x00, 0x70, 0x28, 0x01, 0x2C, 0x00, 0x41] := by decide

/-- C1 (amended): for every body and flags, `build_command` returns
`0xDD 0x00 ++ adjusted_body ++ checksum` where the first body byte is
raised by `0x30`/`0x10`/`0x20` (both/max-only/min-only) wrapping modulo
256 and the checksum is the sum of the adjusted body masked with `0x7F`;
the function is a total Lean function, hence deterministic.  The
particular input of the claim yields checksum byte `0x45` (the claim
said `0x41`). -/
theorem build_command_layout :
    (∀ (b0 : Nat) (rest : List Nat) (has_max_limit has_min_limit : Bool),
      build_command (b0 :: rest) has_max_limit has_min_limit =
        (let a0 :=
          if has_max_limit && has_min_limit then (b0 + 0x30) % 256
          else if has_max_limit then (b0 + 0x10) % 256
          else if has_min_limit then (b0 + 0x20) % 256
          else b0
        [0xDD, 0x00] ++ (a0 :: rest) ++ [(a0 :: rest).sum &&& 0x7F])) ∧
    (∀ has_max_limit has_min_limit : Bool,
      build_command [] has_max_limit has_min_limit =
        [0xDD, 0x00] ++ ([] : List Nat) ++ [([] : List Nat).sum &&& 0x7F]) ∧
    build_command [0x40, 0x28, 0x01, 0x2C, 0x00] true true
      = [0xDD, 0x00, 0x70, 0x28, 0x01, 0x2C, 0x00, 0x45] := by
  refine ⟨fun b0 rest hM hm => ?_, fun hM hm => rfl, by decide⟩
  cases hM <;> cases hm <;>
    simp [build_command, calculate_checksum, commonHeader, and_255_eq_mod]

/- ===== C2: decoding valid frames ===== -/

/-- C2: for a buffer of length at least 11 whose first byte is `0x9D`,
type `0x01` updates the current height to
`(buffer[7] & 0xFF) | ((buffer[6] & 0x0F) << 8)` and type `0x00` updates
the limits analogously from bytes 6-9 (observers notified in both
cases); decoding `[0x9D,0x01,0,0,0,0,0x01,0x2C,0,0,0]` sets the height
to 300 mm, exposed as 30 cm. -/
theorem notification_decode_valid (s : CoordState) (data : List Nat)
    (h11 : 11 ≤ data.length) (h0 : data.getD 0 0 = 0x9D) :
    (data.getD 1 0 = 0x01 →
      notification_handler s data =
        ({ s with current_height_mm :=
            (data.getD 7 0 &&& 0xFF) ||| ((data.getD 6 0 &&& 0x0F) <<< 8) },
         true)) ∧
    (data.getD 1 0 = 0x00 →
      notification_handler s data =
        ({ s with
            min_height_mm :=
              (data.getD 7 0 &&& 0xFF) ||| ((data.getD 6 0 &&& 0x0F) <<< 8),
            max_height_mm :=
              (data.getD 9 0 &&& 0xFF) ||| ((data.getD 8 0 &&& 0x0F) <<< 8) },
         true)) ∧
    (notification_handler initState
        [0x9D, 0x01, 0, 0, 0, 0, 0x01, 0x2C, 0, 0, 0]).1.current_height_mm
      = 300 ∧
    current_height_cm (notification_handler initState
        [0x9D, 0x01, 0, 0, 0, 0, 0x01, 0x2C, 0, 0, 0]).1 = 30 := by
  have hne : ¬data.length = 0 := by omega
  have hnot : ¬(data.length < 11 ∨ data.getD 0 0 ≠ 0x9D) := by
    push_neg
    exact ⟨by omega, h0⟩
  have h300 : (notification_handler initState
      [0x9D, 0x01, 0, 0, 0, 0, 0x01, 0x2C, 0, 0, 0]).1.current_height_mm
      = 300 := by decide
  refine ⟨fun h1 => ?_, fun h1 => ?_, h300, ?_⟩
  · unfold notification_handler
    rw [if_neg hne, if_neg hnot,
      if_neg (show ¬data.getD 1 0 = 0x00 by rw [h1]; norm_num), if_pos h1]
  · unfold notification_handler
    rw [if_neg hne, if_neg hnot, if_pos h1]
  · unfold current_height_cm
    rw [h300]
    norm_num

/-- C2 (witness): the concrete height frame taken through the theorem. -/
theorem notification_decode_valid_witness :
    (notification_handler initState
        [0x9D, 0x01, 0, 0, 0, 0, 0x01, 0x2C, 0, 0, 0]).1.current_height_mm
      = 300 ∧
    current_height_cm (notification_handler initState
        [0x9D, 0x01, 0, 0, 0, 0, 0x01, 0x2C, 0, 0, 0]).1 = 30 :=
  (notification_decode_valid initState
      [0x9D, 0x01, 0, 0, 0, 0, 0x01, 0x2C, 0, 0, 0]
      (by decide) (by decide)).2.2

/- ===== C3: rejecting invalid frames ===== -/

/-- C3: a buffer shorter than 11 bytes, or whose first byte is not
`0x9D`, is rejected: the coordinator state is returned unchanged (every
field included) and no observer notification happens. -/
theorem notification_rejects_invalid (s : CoordState) (data : List Nat)
    (h : data.length < 11 ∨ data.getD 0 0 ≠ 0x9D) :
    notification_handler s data = (s, false) := by
  unfold notification_handler
  by_cases h0 : data.length = 0
  · rw [if_pos h0]
  · rw [if_neg h0, if_pos h]

/-- C3 (witness): a length-5 buffer, and a length-11 buffer starting
with `0x00`, via the theorem. -/
theorem notification_rejects_invalid_witness :
    notification_handler initState [1, 2, 3, 4, 5] = (initState, false) ∧
    notification_handler initState [0, 1, 0, 0, 0, 0, 0, 0, 0, 0, 0]
      = (initState, false) :=
  ⟨notification_rejects_invalid initState [1, 2, 3, 4, 5] (by decide),
   notification_rejects_invalid initState [0, 1, 0, 0, 0, 0, 0, 0, 0, 0, 0]
     (by decide)⟩

/- ===== C9: unrecognized frame types ===== -/

/-- C9: a well-formed frame (length at least 11, first byte `0x9D`)
whose type byte is neither `0x00` nor `0x01` leaves the coordinator
state unchanged, yet the handler still reaches the observer fan-out
(second component `true`) and does not fail. -/
theorem notification_unrecognized_type (s : CoordState) (data : List Nat)
    (h11 : 11 ≤ data.length) (h0 : data.getD 0 0 = 0x9D)
    (ht0 : data.getD 1 0 ≠ 0x00) (ht1 : data.getD 1 0 ≠ 0x01) :
    notification_handler s data = (s, true) := by
  have hne : ¬data.length = 0 := by omega
  have hnot : ¬(data.length < 11 ∨ data.getD 0 0 ≠ 0x9D) := by
    push_neg
    exact ⟨by omega, h0⟩
  unfold notification_handler
  rw [if_neg hne, if_neg hnot, if_neg ht0, if_neg ht1]

/-- C9 (witness): a type-`0x05` frame via the theorem. -/
theorem notification_unrecognized_type_witness :
    notification_handler initState [0x9D, 0x05, 0, 0, 0, 0, 0, 0, 0, 0, 0]
      = (initState, true) :=
  notification_unrecognized_type initState
    [0x9D, 0x05, 0, 0, 0, 0, 0, 0, 0, 0, 0]
    (by decide) (by decide) (by decide) (by decide)

/- ===== C4: move-to-height conversion, clamping, encoding ===== -/

/-- C4: `async_move_to_height` converts the request to millimetres
(`pyInt (cm * 10)`), clamps it into `[min_height_mm, max_height_mm]`
(that clamp is `clampedHeight`), and encodes the clamped value
big-endian over the two body bytes of the auto-move command (high byte
`value / 256`, low byte `value % 256`, which reassemble to the value)
before building the frame; with the default limits 72-122 cm a request
of 150 cm clamps to 1220 mm. -/
theorem move_to_height_clamps (s : CoordState) (cm : ℚ)
    (hminmax : s.min_height_mm ≤ s.max_height_mm)
    (hfit : s.max_height_mm < 65536) :
    (∀ writeOk : Bool,
      async_move_to_height writeOk s cm =
        send_command writeOk s
          (build_command
            (CMD_AUTO_MOVE_BASE ++
              [(clampedHeight s cm).toNat / 256,
               (clampedHeight s cm).toNat % 256,
               s.sensitivity.toNat])
            false false)) ∧
    (s.min_height_mm : Int) ≤ clampedHeight s cm ∧
    clampedHeight s cm ≤ (s.max_height_mm : Int) ∧
    (clampedHeight s cm).toNat / 256 * 256 + (clampedHeight s cm).toNat % 256
      = (clampedHeight s cm).toNat ∧
    (clampedHeight s cm).toNat / 256 < 256 ∧
    clampedHeight initState 150 = 1220 := by
  have hge : (s.min_height_mm : Int) ≤ clampedHeight s cm := le_max_left _ _
  have hle : clampedHeight s cm ≤ (s.max_height_mm : Int) :=
    max_le (by exact_mod_cast hminmax) (min_le_right _ _)
  have h0 : (0 : Int) ≤ clampedHeight s cm :=
    le_trans (Int.natCast_nonneg _) hge
  have hlt : (clampedHeight s cm).toNat < 65536 := by omega
  refine ⟨fun writeOk => ?_, hge, hle, by omega, by omega, ?_⟩
  · unfold async_move_to_height
    rw [shift_and_255_eq_div _ hlt, and_255_eq_mod]
  · unfold clampedHeight initState
    norm_num [pyInt, DEFAULT_MIN_HEIGHT, DEFAULT_MAX_HEIGHT]

/-- C4 (witness): the default limits with a 150 cm request, through the
theorem. -/
theorem move_to_height_clamps_witness :
    clampedHeight initState 150 = 1220 ∧
    async_move_to_height true initState 150 =
      send_command true initState
        (build_command
          (CMD_AUTO_MOVE_BASE ++
            [(clampedHeight initState 150).toNat / 256,
             (clampedHeight initState 150).toNat % 256,
             initState.sensitivity.toNat])
          false false) :=
  ⟨(move_to_height_clamps initState 150 (by decide) (by decide)).2.2.2.2.2,
   (move_to_height_clamps initState 150 (by decide) (by decide)).1 true⟩

/- ===== C5: bounded fixed-interval reconnection ===== -/

lemma countAttempts_reconnectLoop_le (outcomes : Nat → Bool) (d : Nat) :
    ∀ (fuel a : Nat), countAttempts (reconnectLoop outcomes d a fuel) ≤ fuel := by
  intro fuel
  induction fuel with
  | zero =>
    intro a
    simp [reconnectLoop, countAttempts]
  | succ fuel ih =>
    intro a
    by_cases hout : outcomes (a + 1) = true
    · simp [reconnectLoop, hout, countAttempts, List.countP_cons]
    · have h2 := ih (a + 1)
      simp only [countAttempts] at h2 ⊢
      simp [reconnectLoop, hout, List.countP_cons]
      omega

lemma reconnectLoop_all_fail (outcomes : Nat → Bool) (d : Nat)
    (h : ∀ i, outcomes i = false) :
    ∀ (fuel a : Nat), reconnectLoop outcomes d a fuel =
      (List.range' (a + 1) fuel).flatMap
        (fun n => [REvent.delay d, REvent.attempt n]) := by
  intro fuel
  induction fuel with
  | zero =>
    intro a
    simp [reconnectLoop]
  | succ fuel ih =>
    intro a
    rw [List.range'_succ]
    simp [reconnectLoop, h (a + 1), ih (a + 1)]

/-- C5: one reconnection cycle performs at most
`max_reconnect_attempts = 10` connect attempts at a fixed
`reconnect_delay = 5` seconds; when every attempt fails, its trace is
exactly ten delay-then-attempt pairs numbered 1..10 (a fresh counter,
each attempt preceded by the fixed delay) and then stops; and the
`_on_disconnect` guard starts no new cycle while one is active. -/
theorem reconnect_cycle_bounded :
    max_reconnect_attempts = 10 ∧
    reconnect_delay = 5 ∧
    (∀ outcomes : Nat → Bool,
      countAttempts (async_reconnect_trace outcomes) ≤ max_reconnect_attempts) ∧
    (∀ outcomes : Nat → Bool, (∀ i, outcomes i = false) →
      async_reconnect_trace outcomes =
        (List.range' 1 max_reconnect_attempts).flatMap
          (fun n => [REvent.delay reconnect_delay, REvent.attempt n])) ∧
    (∀ s : CoordState, s.reconnect_task_active = true →
      starts_reconnect_cycle s = false) := by
  refine ⟨rfl, rfl,
    fun outcomes => countAttempts_reconnectLoop_le outcomes reconnect_delay
      max_reconnect_attempts 0,
    fun outcomes h => ?_, fun s h => ?_⟩
  · unfold async_reconnect_trace
    simpa using reconnectLoop_all_fail outcomes reconnect_delay h
      max_reconnect_attempts 0
  · simp [starts_reconnect_cycle, h]

/-- C5 (witness): the all-fail transport produces the full ten-attempt
trace, and a state with an active cycle starts no second one, through
the theorem. -/
theorem reconnect_cycle_bounded_witness :
    async_reconnect_trace (fun _ => false) =
      (List.range' 1 max_reconnect_attempts).flatMap
        (fun n => [REvent.delay reconnect_delay, REvent.attempt n]) ∧
    starts_reconnect_cycle
      { initState with reconnect_task_active := true } = false :=
  ⟨reconnect_cycle_bounded.2.2.2.1 (fun _ => false) (fun _ => rfl),
   reconnect_cycle_bounded.2.2.2.2 _ rfl⟩

/- ===== C6: explicit disconnect and the connection flag ===== -/

/-- C6 (counterexample): with a connected transport handle whose close
raises, `async_disconnect` propagates the exception before the
`_is_connected = False` assignment runs, so the stored flag stays
`true` - contradicting "is_connected = false regardless of the
transport close outcome". -/
theorem async_disconnect_close_failure_keeps_flag :
    async_disconnect false
        { initState with
          client := some { is_connected := true }, is_connected := true }
      = Except.error () ∧
    ({ initState with
        client := some { is_connected := true }, is_connected := true }
      : CoordState).is_connected = true :=
  ⟨rfl, rfl⟩

/-- C6 (amended): an explicit disconnect ends with `is_connected = false`
whenever no transport handle exists, the handle reports not connected,
or the transport close succeeds; when the close raises, the error
propagates and the stored flag is left unchanged. -/
theorem async_disconnect_clears_flag (s : CoordState) (closeOk : Bool)
    (h : s.client = none ∨ (∃ c, s.client = some c ∧ c.is_connected = false)
      ∨ closeOk = true) :
    ∃ s1, async_disconnect closeOk s = Except.ok s1 ∧
      s1.is_connected = false := by
  rcases hc : s.client with _ | c
  · exact ⟨{ s with is_connected := false },
      by simp [async_disconnect, hc], rfl⟩
  · rcases hcc : c.is_connected with _ | _
    · exact ⟨{ s with is_connected := false },
        by simp [async_disconnect, hc, hcc], rfl⟩
    · have hok : closeOk = true := by
        rcases h with h1 | ⟨c2, hc2, hcc2⟩ | h1
        · rw [h1] at hc
          exact Option.noConfusion hc
        · rw [hc] at hc2
          injection hc2 with he
          rw [← he] at hcc2
          rw [hcc] at hcc2
          exact Bool.noConfusion hcc2
        · exact h1
      exact ⟨{ s with
               client := some { c with is_connected := false },
               is_connected := false },
        by simp [async_disconnect, hc, hcc, hok], rfl⟩

/-- C6 (witness): disconnecting the freshly initialised coordinator (no
transport handle) through the theorem. -/
theorem async_disconnect_clears_flag_witness :
    ∃ s1, async_disconnect false initState = Except.ok s1 ∧
      s1.is_connected = false :=
  async_disconnect_clears_flag initState false (Or.inl rfl)

/- ===== C7: commands and the connection guard ===== -/

/-- C7 (counterexample): the claim fails on the code.  Reachable
schedule: setup connects fully; the link drops (`_on_disconnect` clears
the flag and starts the reconnection cycle); a reconnection attempt
establishes the transport but `start_notify` raises (the cycle catches
the exception).  Now `_is_connected` is false while `self.client` is a
connected handle, and the guard of `_send_command` - which checks the
handle, not the flag - lets `async_move_up` write its frame
successfully instead of failing. -/
theorem command_sent_while_flag_false :
    (runOps [Op.connect true true, Op.link_lost,
      Op.connect true false]).is_connected = false ∧
    async_move_up true
        (runOps [Op.connect true true, Op.link_lost, Op.connect true false])
      = .ok (runOps [Op.connect true true, Op.link_lost,
               Op.connect true false],
             build_command (CMD_UP ++ [0]) false false) :=
  ⟨rfl, rfl⟩

/-- C7 (amended): a command issued while no connected transport handle
exists (`self.client` is `None` or reports not connected - the actual
guard of `_send_command`) fails immediately with
`UpdateFailed("Not connected to desk")`, is not queued or buffered, and
leaves the coordinator state unchanged.  The flag `is_connected = false`
alone does not guarantee failure: after a reconnection attempt that
established the transport but failed to subscribe, the handle is
connected while the flag is still false, and commands go through (see
the counterexample). -/
theorem commands_fail_without_transport (s : CoordState) (writeOk : Bool)
    (cm : ℚ) (h : client_connected s = false) :
    async_move_up writeOk s = .error "Not connected to desk" ∧
    async_move_down writeOk s = .error "Not connected to desk" ∧
    async_stop writeOk s = .error "Not connected to desk" ∧
    async_move_to_height writeOk s cm = .error "Not connected to desk" ∧
    async_stop_auto_move writeOk s = .error "Not connected to desk" ∧
    applyOp s (Op.move_up writeOk) = s ∧
    applyOp s (Op.move_down writeOk) = s ∧
    applyOp s (Op.stop writeOk) = s ∧
    applyOp s (Op.move_to_height writeOk cm) = s ∧
    applyOp s (Op.stop_auto_move writeOk) = s := by
  have hsend : ∀ cmdl : List Nat,
      send_command writeOk s cmdl = .error "Not connected to desk" := by
    intro cmdl
    unfold send_command
    rw [h]
    simp
  exact ⟨hsend _, hsend _, hsend _, hsend _, hsend _,
    rfl, rfl, rfl, rfl, rfl⟩

/-- C7 (witness): the freshly initialised (no handle) coordinator,
through the amended theorem. -/
theorem commands_fail_without_transport_witness :
    async_move_up true initState = .error "Not connected to desk" ∧
    async_move_down true initState = .error "Not connected to desk" ∧
    async_stop true initState = .error "Not connected to desk" ∧
    async_move_to_height true initState 0 = .error "Not connected to desk" ∧
    async_stop_auto_move true initState = .error "Not connected to desk" ∧
    applyOp initState (Op.move_up true) = initState ∧
    applyOp initState (Op.move_down true) = initState ∧
    applyOp initState (Op.stop true) = initState ∧
    applyOp initState (Op.move_to_height true 0) = initState ∧
    applyOp initState (Op.stop_auto_move true) = initState :=
  commands_fail_without_transport initState true 0 rfl

/- ===== C8: sensitivity clamping and invariant ===== -/

/-- Every operation either leaves the stored sensitivity alone or stores
a `max(0, min(8, v))` clamp of some caller input. -/
lemma applyOp_sensitivity (s : CoordState) (op : Op) :
    (applyOp s op).sensitivity = s.sensitivity ∨
    ∃ v : Int, (applyOp s op).sensitivity = max 0 (min 8 v) := by
  cases op with
  | connect establishOk notifyOk =>
    cases establishOk <;> cases notifyOk <;> exact Or.inl rfl
  | disconnect ok =>
    left
    rcases hc : s.client with _ | c
    · simp [applyOp, async_disconnect, hc]
    · rcases hcc : c.is_connected with _ | _
      · simp [applyOp, async_disconnect, hc, hcc]
      · cases ok
        · simp [applyOp, async_disconnect, hc, hcc]
        · simp [applyOp, async_disconnect, hc, hcc]
  | link_lost =>
    left
    simp only [applyOp]
    unfold on_disconnect
    split <;> rfl
  | notify data =>
    exact Or.inl (notification_handler_untouched_fields s data).2.2.2.2.2
  | move_up w => exact Or.inl rfl
  | move_down w => exact Or.inl rfl
  | stop w => exact Or.inl rfl
  | move_to_height w cm => exact Or.inl rfl
  | stop_auto_move w => exact Or.inl rfl
  | set_sensitivity v => exact Or.inr ⟨v, rfl⟩
  | shutdown ok =>
    left
    rcases hc : s.client with _ | c
    · simp [applyOp, async_disconnect, hc]
    · rcases hcc : c.is_connected with _ | _
      · simp [applyOp, async_disconnect, hc, hcc]
      · cases ok
        · simp [applyOp, async_disconnect, hc, hcc]
        · simp [applyOp, async_disconnect, hc, hcc]

lemma sensitivity_bounds_foldl (ops : List Op) :
    ∀ s : CoordState, 0 ≤ s.sensitivity → s.sensitivity ≤ 8 →
      0 ≤ (ops.foldl applyOp s).sensitivity ∧
        (ops.foldl applyOp s).sensitivity ≤ 8 := by
  induction ops with
  | nil => exact fun s h0 h8 => ⟨h0, h8⟩
  | cons op rest ih =>
    intro s h0 h8
    rw [List.foldl_cons]
    rcases applyOp_sensitivity s op with he | ⟨v, he⟩
    · exact ih _ (by rw [he]; exact h0) (by rw [he]; exact h8)
    · exact ih _ (by rw [he]; omega) (by rw [he]; omega)

/-- C8: `set_sensitivity` stores `max(0, min(8, input))`, so
`set_sensitivity(-3)` stores 0 and `set_sensitivity(20)` stores 8; the
invariant `0 ≤ sensitivity ≤ 8` holds in the initial state and is
preserved by every operation of the system (any finite operation
sequence from `__init__`). -/
theorem set_sensitivity_clamped :
    (∀ (s : CoordState) (v : Int),
      (set_sensitivity s v).sensitivity = max 0 (min 8 v)) ∧
    (set_sensitivity initState (-3)).sensitivity = 0 ∧
    (set_sensitivity initState 20).sensitivity = 8 ∧
    0 ≤ initState.sensitivity ∧ initState.sensitivity ≤ 8 ∧
    (∀ ops : List Op,
      0 ≤ (runOps ops).sensitivity ∧ (runOps ops).sensitivity ≤ 8) :=
  ⟨fun s v => rfl, by decide, by decide, by decide, by decide,
   fun ops => sensitivity_bounds_foldl ops initState (by decide) (by decide)⟩

/- ===== C10: inbound heights are 12-bit values ===== -/

/-- One notification keeps all three height fields within 12 bits. -/
lemma heights_le_notification (s : CoordState) (data : List Nat)
    (h : s.current_height_mm ≤ 4095 ∧ s.min_height_mm ≤ 4095 ∧
      s.max_height_mm ≤ 4095) :
    (notification_handler s data).1.current_height_mm ≤ 4095 ∧
    (notification_handler s data).1.min_height_mm ≤ 4095 ∧
    (notification_handler s data).1.max_height_mm ≤ 4095 := by
  unfold notification_handler
  split
  · exact h
  split
  · exact h
  split
  · exact ⟨h.1, twelve_bit_le _ _, twelve_bit_le _ _⟩
  split
  · exact ⟨twelve_bit_le _ _, h.2.1, h.2.2⟩
  · exact h

/-- C10: every height the notification handler writes is reassembled
under a `& 0x0F` high-nibble mask, so starting from the defaults
(0 mm, 720 mm, 1220 mm) every finite sequence of notifications leaves
`current_height_mm`, `min_height_mm` and `max_height_mm` in
`[0, 4095]` - even though `async_move_to_height` emits a full 16-bit
big-endian field outbound. -/
theorem notification_heights_twelve_bit (bufs : List (List Nat)) :
    (bufs.foldl (fun s data => (notification_handler s data).1)
      initState).current_height_mm ≤ 4095 ∧
    (bufs.foldl (fun s data => (notification_handler s data).1)
      initState).min_height_mm ≤ 4095 ∧
    (bufs.foldl (fun s data => (notification_handler s data).1)
      initState).max_height_mm ≤ 4095 := by
  suffices hgen : ∀ (l : List (List Nat)) (s : CoordState),
      (s.current_height_mm ≤ 4095 ∧ s.min_height_mm ≤ 4095 ∧
        s.max_height_mm ≤ 4095) →
      ((l.foldl (fun s data => (notification_handler s data).1)
          s).current_height_mm ≤ 4095 ∧
        (l.foldl (fun s data => (notification_handler s data).1)
          s).min_height_mm ≤ 4095 ∧
        (l.foldl (fun s data => (notification_handler s data).1)
          s).max_height_mm ≤ 4095) by
    exact hgen bufs initState (by decide)
  intro l
  induction l with
  | nil => exact fun s hs => hs
  | cons d rest ih =>
    intro s hs
    rw [List.foldl_cons]
    exact ih _ (heights_le_notification s d hs)
